import Mathlib

/-!
Verification development for the scan-orchestration core of the
jupyter-ht-hedm repository (APS 6-ID-D high-throughput HEDM beamline).

The repository drives a tomography scan through a Bluesky plan
(seisidd/tomo_plans.py, invoked from src/tomo_template_deprecated.ipynb).
The notebook records, via summarize_plan, the exact message sequence the
plan emits for the template configuration (a fly scan, omega 0 -> 10 by
0.2, n_white = 5, n_dark = 5), together with the RunEngine traceback of
the real execution.  That recorded message sequence is transcribed below
as `recordedTrace` and is the ground truth for trace-level claims.

The plan source itself (seisidd/tomo_plans.py) is not part of the
sources; parameterized behaviour is modelled from the specification
(and, where the recorded trace reveals the actual structure, from the
trace), with each such definition marked in its doc comment.
-/

/-- A message emitted by the scan plan, as printed by Bluesky's
summarize_plan in the notebook: run opening/closing, shutter commands,
signal sets (signal name, printed value), and detector reads. -/
inductive TraceMsg where
  | openRun : TraceMsg
  | closeRun : TraceMsg
  | shutter (action : String) : TraceMsg
  | set (signal : String) (value : String) : TraceMsg
  | read (objs : List String) : TraceMsg
deriving DecidableEq, Repr

/-- The exact message sequence recorded by summarize_plan in
src/tomo_template_deprecated.ipynb (cell 18) for
tomo_scan(det, tomostage, A_shutter, suspend_A_shutter, scan_cfg,
init_motors_pos), transcribed message for message. -/
def recordedTrace : List TraceMsg :=
  [ .openRun
  , .shutter "open"
  , .set "det_tiff1_file_path" "/dev/shm/tmp/"
  , .set "det_tiff1_file_name" "ttt"
  , .set "det_tiff1_file_write_mode" "2"
  , .set "det_tiff1_num_capture" "66"
  , .set "det_tiff1_file_template" "%s%s_%06d.hdf"
  , .set "det_hdf1_file_path" "/dev/shm/tmp/"
  , .set "det_hdf1_file_name" "ttt"
  , .set "det_hdf1_file_write_mode" "2"
  , .set "det_hdf1_num_capture" "66"
  , .set "det_hdf1_file_template" "%s%s_%06d.hdf"
  , .set "det_tiff1_enable" "0"
  , .set "det_hdf1_enable" "1"
  , .set "det_hdf1_capture" "1"
  , .set "det_cam_frame_type" "0"
  , .openRun
  , .set "tomostage_ksamX" "-1.0"
  , .set "tomostage_ksamZ" "0.0"
  , .set "det_hdf1_nd_array_port" "PROC1"
  , .set "det_tiff1_nd_array_port" "PROC1"
  , .set "det_proc1_enable" "1"
  , .set "det_proc1_reset_filter" "1"
  , .set "det_proc1_num_filter" "1"
  , .set "det_cam_trigger_mode" "Internal"
  , .set "det_cam_image_mode" "Multiple"
  , .set "det_cam_num_images" "5"
  , .read ["det"]
  , .set "tomostage_samX" "0.0"
  , .set "tomostage_samY" "0.0"
  , .closeRun
  , .set "det_cam_frame_type" "1"
  , .openRun
  , .set "det_hdf1_nd_array_port" "PG1"
  , .set "det_tiff1_nd_array_port" "PG1"
  , .set "psofly_start" "0.0"
  , .set "psofly_end" "10.0"
  , .set "psofly_scan_delta" "0.2"
  , .set "psofly_slew_speed" "1.9413706076489998"
  , .set "psofly_taxi" "Taxi"
  , .set "det_cam_num_images" "51"
  , .set "det_cam_trigger_mode" "Overlapped"
  , .set "psofly_fly" "Fly"
  , .closeRun
  , .set "det_cam_frame_type" "2"
  , .openRun
  , .set "tomostage_ksamX" "-0.984807753012208"
  , .set "tomostage_ksamZ" "0.17364817766693033"
  , .set "det_hdf1_nd_array_port" "PROC1"
  , .set "det_tiff1_nd_array_port" "PROC1"
  , .set "det_proc1_enable" "1"
  , .set "det_proc1_reset_filter" "1"
  , .set "det_proc1_num_filter" "1"
  , .set "det_cam_trigger_mode" "Internal"
  , .set "det_cam_image_mode" "Multiple"
  , .set "det_cam_num_images" "5"
  , .read ["det"]
  , .set "tomostage_samX" "0.0"
  , .set "tomostage_samY" "0.0"
  , .closeRun
  , .set "det_cam_frame_type" "3"
  , .shutter "close"
  , .openRun
  , .set "det_hdf1_nd_array_port" "PROC1"
  , .set "det_tiff1_nd_array_port" "PROC1"
  , .set "det_proc1_enable" "1"
  , .set "det_proc1_reset_filter" "1"
  , .set "det_proc1_num_filter" "1"
  , .set "det_cam_trigger_mode" "Internal"
  , .set "det_cam_image_mode" "Multiple"
  , .set "det_cam_num_images" "5"
  , .read ["det"]
  , .closeRun
  , .closeRun ]

/-- Number of open_run messages in a trace. -/
def countOpenRun (l : List TraceMsg) : Nat :=
  l.countP (fun m => match m with | .openRun => true | _ => false)

/-- Number of close_run messages in a trace. -/
def countCloseRun (l : List TraceMsg) : Nat :=
  l.countP (fun m => match m with | .closeRun => true | _ => false)

/-- Scan a trace keeping the number of currently-open runs; `true` iff
every open_run is emitted with no run currently open and every close_run
closes an open run (the Bluesky RunEngine rejects a nested open_run with
IllegalMessageSequence). -/
def noNestedOpenAux : List TraceMsg → Nat → Bool
  | [], _ => true
  | .openRun :: rest, d => d == 0 && noNestedOpenAux rest (d + 1)
  | .closeRun :: rest, d =>
      match d with
      | 0 => false
      | e + 1 => noNestedOpenAux rest e
  | _ :: rest, d => noNestedOpenAux rest d

/-- True iff no open_run is ever emitted while a previously opened run
is still open, and no close_run arrives without an open run. -/
def noNestedOpen (l : List TraceMsg) : Bool := noNestedOpenAux l 0

/-- The prefix of the plan's message sequence that the RunEngine had
consumed when it aborted the real execution: everything up to and
including the second open_run, at which point _open_run raised
IllegalMessageSequence (notebook cell 19 traceback). -/
def abortConsumed : List TraceMsg := recordedTrace.take 17

/-- Split a trace into its inner runs: the segments delimited by an
open_run at nesting depth 1 and the matching close_run.  In the
recorded trace the whole plan is wrapped in one enclosing run, so the
inner runs are the white-field, projection and dark-field runs. -/
def innerRunsAux : List TraceMsg → Nat → List TraceMsg → List (List TraceMsg)
  | [], _, _ => []
  | .openRun :: rest, d, acc =>
      if d == 1 then innerRunsAux rest 2 [] else innerRunsAux rest (d + 1) acc
  | .closeRun :: rest, d, acc =>
      if d == 2 then acc.reverse :: innerRunsAux rest 1 []
      else innerRunsAux rest (d - 1) acc
  | m :: rest, d, acc =>
      if 2 ≤ d then innerRunsAux rest d (m :: acc) else innerRunsAux rest d acc

/-- The inner runs of a trace (see innerRunsAux). -/
def innerRuns (l : List TraceMsg) : List (List TraceMsg) := innerRunsAux l 0 []

/-- Does the run segment contain a set of the given signal? -/
def hasSet (sig : String) (run : List TraceMsg) : Bool :=
  run.any (fun m => match m with | .set s _ => s == sig | _ => false)

/-- Does the run segment contain a detector read (an acquisition)? -/
def hasRead (run : List TraceMsg) : Bool :=
  run.any (fun m => match m with | .read _ => true | _ => false)

/-- Number of detector reads (acquisitions) in a run segment. -/
def readCount (run : List TraceMsg) : Nat :=
  run.countP (fun m => match m with | .read _ => true | _ => false)

/-- The value assigned to the given signal in a run segment, if any. -/
def setValue (sig : String) (run : List TraceMsg) : Option String :=
  run.findSome? (fun m =>
    match m with
    | .set s v => if s == sig then some v else none
    | _ => none)

/-- Kind of an inner run, identified from its messages: a run driving
the position-synchronized fly motion is the projection run; a run that
first moves the ksamX/ksamZ sample stage out of the beam is a
white-field run; any other acquiring run (it follows the shutter close
in the recorded trace) is a dark-field run. -/
inductive RunKind where
  | white
  | projection
  | dark
  | outer
  | other
deriving DecidableEq, Repr

/-- Classify an inner run segment (see RunKind). -/
def classifyRun (run : List TraceMsg) : RunKind :=
  if hasSet "psofly_fly" run then .projection
  else if hasSet "tomostage_ksamX" run then .white
  else if hasRead run then .dark
  else .other

/-- The sequence of inner-run kinds of a trace. -/
def runKindSeq (l : List TraceMsg) : List RunKind :=
  (innerRuns l).map classifyRun

/-- Number of white-field inner runs in a trace. -/
def whiteRunCount (l : List TraceMsg) : Nat :=
  (runKindSeq l).count .white

/-- Parse a list of decimal digits into a number. -/
def parseNatAux : List Char → Nat → Option Nat
  | [], acc => some acc
  | c :: rest, acc =>
      if c.toNat ≥ 48 ∧ c.toNat ≤ 57 then
        parseNatAux rest (acc * 10 + (c.toNat - 48))
      else none

/-- Parse a printed decimal number. -/
def parseNat (s : String) : Option Nat :=
  match s.data with
  | [] => none
  | l => parseNatAux l 0

/-- The det_cam_num_images value configured inside a run segment,
parsed as a number. -/
def numImagesOf (run : List TraceMsg) : Option Nat :=
  (setValue "det_cam_num_images" run).bind parseNat

/-- The image counts configured in the white-field runs of a trace. -/
def whiteRunImages (l : List TraceMsg) : List (Option Nat) :=
  ((innerRuns l).filter (fun r => classifyRun r == RunKind.white)).map numImagesOf

/-- The image count configured in the projection run of a trace. -/
def projRunImages (l : List TraceMsg) : Option Nat :=
  ((innerRuns l).find? (fun r => classifyRun r == RunKind.projection)).bind numImagesOf

/-- Index (0-based) of the n-th (0-based) message satisfying p. -/
def idxFromAux (p : TraceMsg → Bool) : List TraceMsg → Nat → Nat → Option Nat
  | [], _, _ => none
  | m :: rest, n, i =>
      if p m then
        match n with
        | 0 => some i
        | k + 1 => idxFromAux p rest k (i + 1)
      else idxFromAux p rest n (i + 1)

/-- Index of the n-th occurrence (0-based) of a message kind in a trace. -/
def nthIdx (p : TraceMsg → Bool) (n : Nat) (l : List TraceMsg) : Option Nat :=
  idxFromAux p l n 0

/-- Is the message an open_run? -/
def isOpenMsg (m : TraceMsg) : Bool :=
  match m with | .openRun => true | _ => false

/-- Is the message a close_run? -/
def isCloseMsg (m : TraceMsg) : Bool :=
  match m with | .closeRun => true | _ => false

/-- Is the message the shutter-close command? -/
def isShutterClose (m : TraceMsg) : Bool :=
  match m with | .shutter a => a == "close" | _ => false

/-- Scan mode: step-and-shoot or position-synchronized fly motion
(config key tomo.type in the scan-configuration yaml). -/
inductive ScanType where
  | step
  | fly
deriving DecidableEq, Repr

/-- Modelled from the spec: the validated, immutable parameter set of a
scan (spec section 3 ScanConfig; the construction-time validation code
is not under the sources).  Field names follow the scan-configuration
yaml in docker-compose.yml (tomo section). -/
structure ScanConfig where
  scanType : ScanType
  nWhite : Nat
  nDark : Nat
  nFrames : Nat
  acquireTime : ℚ
  acquirePeriod : ℚ
  omegaStart : ℚ
  omegaEnd : ℚ
  omegaStep : ℚ
  kx : ℚ
  kz : ℚ
  rotSpeed : ℚ
  accl : ℚ
deriving DecidableEq, Repr

/-- Number of projection acquisitions the detector is configured for:
the boundary-inclusive count floor((omega_end - omega_start)/omega_step)
+ 1, matching the recorded trace (psofly start 0, end 10, scan_delta
0.2 together with det_cam_num_images = 51). -/
def nProjections (cfg : ScanConfig) : Nat :=
  (⌊(cfg.omegaEnd - cfg.omegaStart) / cfg.omegaStep⌋).toNat + 1

/-- The omega angles visited by a step scan, boundary inclusive. -/
def omegaSeq (cfg : ScanConfig) : List ℚ :=
  (List.range (nProjections cfg)).map
    (fun i => cfg.omegaStart + (i : ℚ) * cfg.omegaStep)

/-- Trigger mode of the area detector. -/
inductive TrigMode where
  | internal
  | overlapped
deriving DecidableEq, Repr

/-- Abstract event emitted by the modelled scan sequence; open_run
events carry the run kind the detector frame_type tag designates. -/
inductive MEv where
  | openRun (k : RunKind)
  | closeRun
  | shutterOpen
  | shutterClose
  | sampleOut (dx dz : ℚ)
  | sampleIn (dx dz : ℚ)
  | configDet (k : RunKind) (t : TrigMode) (n : Nat)
  | acquire (n : Nat)
  | rotTo (omega : ℚ)
  | taxi
  | fly
deriving DecidableEq, Repr

/-- Modelled from the spec: a white-field collection (spec section 4.5
rule 1; seisidd/tomo_plans.py collect_white_field is not under the
sources).  Skipped entirely when n_white = 0; otherwise one run that
moves the sample out, acquires n_white images with internal trigger,
and moves the sample back in, as in the recorded trace segments. -/
def whiteSeg (cfg : ScanConfig) : List MEv :=
  if cfg.nWhite = 0 then []
  else
    [ .openRun .white
    , .sampleOut cfg.kx cfg.kz
    , .configDet .white .internal cfg.nWhite
    , .acquire cfg.nWhite
    , .sampleIn (-cfg.kx) (-cfg.kz)
    , .closeRun ]

/-- Modelled from the spec: the projection run (spec section 4.5 rule
2; seisidd/tomo_plans.py is not under the sources).  Step mode iterates
the omega angles with an internally triggered acquisition at each;
fly mode taxis, configures the overlapped-trigger image count and
flies, as in the recorded trace's projection run. -/
def projSeg (cfg : ScanConfig) : List MEv :=
  match cfg.scanType with
  | .fly =>
      [ .openRun .projection
      , .taxi
      , .configDet .projection .overlapped (nProjections cfg)
      , .fly
      , .acquire (nProjections cfg)
      , .closeRun ]
  | .step =>
      .openRun .projection ::
        ((omegaSeq cfg).flatMap
          (fun ω => [ .rotTo ω
                    , .configDet .projection .internal cfg.nFrames
                    , .acquire cfg.nFrames ]) ++ [MEv.closeRun])

/-- Modelled from the spec: the dark-field collection (spec section 4.5
rule 3; seisidd/tomo_plans.py collect_dark_field is not under the
sources).  Skipped entirely when n_dark = 0; otherwise one run that
acquires n_dark internally triggered images. -/
def darkSeg (cfg : ScanConfig) : List MEv :=
  if cfg.nDark = 0 then []
  else
    [ .openRun .dark
    , .configDet .dark .internal cfg.nDark
    , .acquire cfg.nDark
    , .closeRun ]

/-- Modelled from the spec and the recorded trace: the full tomo_scan
message sequence (seisidd/tomo_plans.py tomo_scan is not under the
sources).  The structure follows the recorded summarize_plan output:
an enclosing run wraps the whole plan, the shutter opens first, a
white field is collected before and after the projection run, and the
shutter closes before the dark-field run. -/
def tomoScanModel (cfg : ScanConfig) : List MEv :=
  [MEv.openRun .outer, MEv.shutterOpen]
    ++ whiteSeg cfg ++ projSeg cfg ++ whiteSeg cfg
    ++ [MEv.shutterClose] ++ darkSeg cfg ++ [MEv.closeRun]

/-- The kinds of the runs opened by a modelled event sequence, in
order. -/
def openKinds (evs : List MEv) : List RunKind :=
  evs.filterMap (fun e => match e with | .openRun k => some k | _ => none)

/-- The image counts configured for white-field acquisition in a
modelled event sequence. -/
def whiteImgCounts (evs : List MEv) : List Nat :=
  evs.filterMap (fun e =>
    match e with
    | .configDet .white _ n => some n
    | _ => none)

/-- The tomo template scan configuration from the scan-configuration
yaml bundled with docker-compose.yml (tomo section): step scan,
n_white = n_dark = n_frames = 5, acquire_time 0.5 s, acquire_period
0.51 s, omega 0 to 20 by 0.5, sample_out_position kx = -1, kz = 0,
ROT_STAGE_FAST_SPEED 1, accl 3. -/
def tomoTemplateCfg : ScanConfig where
  scanType := .step
  nWhite := 5
  nDark := 5
  nFrames := 5
  acquireTime := 1/2
  acquirePeriod := 51/100
  omegaStart := 0
  omegaEnd := 20
  omegaStep := 1/2
  kx := -1
  kz := 0
  rotSpeed := 1
  accl := 3

/-- The configuration of the recorded notebook execution, as evidenced
by the trace itself: fly scan, psofly start 0, end 10, scan_delta 0.2,
five white-field and five dark-field images. -/
def recordedCfg : ScanConfig where
  scanType := .fly
  nWhite := 5
  nDark := 5
  nFrames := 1
  acquireTime := 1/10
  acquirePeriod := 11/100
  omegaStart := 0
  omegaEnd := 10
  omegaStep := 1/5
  kx := -1
  kz := 0
  rotSpeed := 1
  accl := 3

/-- Motors of the tomo stage touched by the scan (notebook cell 3). -/
inductive Motor where
  | samX
  | samY
  | ksamX
  | ksamZ
  | preci
deriving DecidableEq, Repr

/-- Positions of the five stage motors. -/
structure MotorPos where
  samX : ℚ
  samY : ℚ
  ksamX : ℚ
  ksamZ : ℚ
  preci : ℚ
deriving DecidableEq, Repr

/-- Position of one motor. -/
def MotorPos.get (p : MotorPos) : Motor → ℚ
  | .samX => p.samX
  | .samY => p.samY
  | .ksamX => p.ksamX
  | .ksamZ => p.ksamZ
  | .preci => p.preci

/-- Write the position of one motor. -/
def MotorPos.put (p : MotorPos) (m : Motor) (v : ℚ) : MotorPos :=
  match m with
  | .samX => { p with samX := v }
  | .samY => { p with samY := v }
  | .ksamX => { p with ksamX := v }
  | .ksamZ => { p with ksamZ := v }
  | .preci => { p with preci := v }

/-- Primitive hardware commands of the modelled sequencer.  Each
armWait carries a static tag (0 front white field, 1 projection,
2 back white field, 3 dark field) so a device-fault oracle can target
a specific acquisition. -/
inductive Cmd where
  | shOpen
  | shClose
  | moveRel (m : Motor) (d : ℚ)
  | moveAbs (m : Motor) (v : ℚ)
  | armWait (tag : Nat)
  | taxiCmd
  | flyCmd
deriving DecidableEq, Repr

/-- Execution state of the modelled sequencer: shutter, motor
positions, and the RunContext home-position stack.  Every motion pushes
the motor's position as of that move; replaying the stack LIFO (most
recent first, so the position saved at a motor's first movement is
written last) restores every moved motor to its pre-run position. -/
structure ExecSt where
  shutterIsOpen : Bool
  pos : MotorPos
  saved : List (Motor × ℚ)
deriving DecidableEq, Repr

/-- Effect of a non-acquisition command on the execution state. -/
def stepCmd (st : ExecSt) (c : Cmd) : ExecSt :=
  match c with
  | .shOpen => { st with shutterIsOpen := true }
  | .shClose => { st with shutterIsOpen := false }
  | .moveRel m d =>
      { st with
        saved := (m, st.pos.get m) :: st.saved
        pos := st.pos.put m (st.pos.get m + d) }
  | .moveAbs m v =>
      { st with
        saved := (m, st.pos.get m) :: st.saved
        pos := st.pos.put m v }
  | _ => st

/-- Replay the home-position stack (LIFO): the restoration the
RunContext performs on destruction, on success and on abort alike. -/
def restoredPos (st : ExecSt) : MotorPos :=
  st.saved.foldl (fun p e => p.put e.1 e.2) st.pos

/-- Outcome of a modelled scan: whether it ended Failed, the final
shutter state, and the final motor positions. -/
structure SimResult where
  failed : Bool
  shutterIsOpen : Bool
  pos : MotorPos
deriving DecidableEq, Repr

/-- Modelled from the spec: run a command list (spec sections 4.5 and
7; seisidd/tomo_plans.py is not under the sources).  A DeviceFault
reported by the fault oracle at an armWait aborts: best-effort shutter
close, restoration of all moved motors, final state Failed.  Normal
completion also restores (RunContext destruction) and ends Done. -/
def runPlan (fault : Nat → Bool) : List Cmd → ExecSt → SimResult
  | [], st => ⟨false, st.shutterIsOpen, restoredPos st⟩
  | c :: rest, st =>
      match c with
      | .armWait t =>
          if fault t then ⟨true, false, restoredPos st⟩
          else runPlan fault rest st
      | _ => runPlan fault rest (stepCmd st c)

/-- Modelled from the spec and the recorded trace: the white-field
command block (sample out, acquire, sample back in); empty when
n_white = 0. -/
def whiteCmds (cfg : ScanConfig) (tag : Nat) : List Cmd :=
  if cfg.nWhite = 0 then []
  else
    [ .moveRel .ksamX cfg.kx
    , .moveRel .ksamZ cfg.kz
    , .armWait tag
    , .moveRel .ksamX (-cfg.kx)
    , .moveRel .ksamZ (-cfg.kz) ]

/-- Modelled from the spec: the projection command block.  Fly mode
taxis to the run-up position, flies to omega_end and performs the one
long acquisition (armWait 1); step mode steps the rotation axis
through the omega angles acquiring at each (also tag 1). -/
def projCmds (cfg : ScanConfig) : List Cmd :=
  match cfg.scanType with
  | .fly =>
      [ .taxiCmd
      , .moveAbs .preci cfg.omegaStart
      , .flyCmd
      , .moveAbs .preci cfg.omegaEnd
      , .armWait 1 ]
  | .step =>
      (omegaSeq cfg).flatMap (fun ω => [.moveAbs .preci ω, .armWait 1])

/-- Modelled from the spec: the dark-field command block; empty when
n_dark = 0. -/
def darkCmds (cfg : ScanConfig) : List Cmd :=
  if cfg.nDark = 0 then [] else [.armWait 3]

/-- Modelled from the spec and the recorded trace: the full command
sequence of one scan: open shutter, front white field, projections,
back white field, close shutter, dark field. -/
def buildPlan (cfg : ScanConfig) : List Cmd :=
  [Cmd.shOpen] ++ whiteCmds cfg 0 ++ projCmds cfg ++ whiteCmds cfg 2
    ++ [Cmd.shClose] ++ darkCmds cfg

/-- Run the modelled scan from the given initial motor positions with
the given device-fault oracle. -/
def tomoScanSim (cfg : ScanConfig) (init : MotorPos) (fault : Nat → Bool) :
    SimResult :=
  runPlan fault (buildPlan cfg) ⟨false, init, []⟩

/-- Events of the step-mode projection loop with Suspender
checkpoints. -/
inductive StepEv where
  | pause
  | move (omega : ℚ)
  | acq (omega : ℚ)
deriving DecidableEq, Repr

/-- Modelled from the spec: the step-mode projection loop under the
Suspender (spec section 4.3; seisidd/tomo_plans.py and the installed
SuspendFloor's interaction are not under the sources).  Before each
motion command the sequencer polls the suspender (trip i is true when
a trip is pending at the checkpoint before the i-th angle); a trip
pauses there and, once cleared, the loop resumes with the same pending
angle. -/
def stepScanRun : List ℚ → (Nat → Bool) → Nat → List StepEv
  | [], _, _ => []
  | ω :: rest, trip, i =>
      (if trip i then [StepEv.pause] else [])
        ++ [StepEv.move ω, StepEv.acq ω]
        ++ stepScanRun rest trip (i + 1)

/-- The omega angles acquired over a step run, in order. -/
def acqAngles (evs : List StepEv) : List ℚ :=
  evs.filterMap (fun e => match e with | .acq ω => some ω | _ => none)

/-- True iff every pause is immediately followed by a motion command:
the sequencer never pauses mid-motion or mid-acquisition. -/
def pausesOk : List StepEv → Bool
  | [] => true
  | .pause :: rest =>
      (match rest with
       | .move _ :: _ => true
       | _ => false) && pausesOk rest
  | _ :: rest => pausesOk rest

/-- The saved home positions of a run, replayed by restoration in LIFO
order; one absolute move per motor, to the position recorded before
the run (tomo_scan's init_motors_pos argument). -/
def restoreList (home : MotorPos) : List (Motor × ℚ) :=
  [ (.preci, home.preci)
  , (.ksamZ, home.ksamZ)
  , (.ksamX, home.ksamX)
  , (.samY, home.samY)
  , (.samX, home.samX) ]

/-- Modelled from the spec: the restoration operation (spec section
4.5 rule 4; the restore code of tomo_plans.py is not under the
sources): move every motor back to its saved home position by
absolute moves. -/
def applyRestore (home : MotorPos) (p : MotorPos) : MotorPos :=
  (restoreList home).foldl (fun q e => q.put e.1 e.2) p

/-- Total net motion that restoring to home from p performs: the sum
of the absolute per-motor moves. -/
def netMotion (home p : MotorPos) : ℚ :=
  |home.samX - p.samX| + |home.samY - p.samY| + |home.ksamX - p.ksamX|
    + |home.ksamZ - p.ksamZ| + |home.preci - p.preci|

/-- Validation failure causes (spec section 4.1). -/
inductive ConfigError where
  | badDuration
  | periodBelowTime
  | nonIntegralSteps
  | missingFlyParams
  | unknownFormat
deriving DecidableEq, Repr

/-- Modelled from the spec: the raw, unvalidated scan-configuration
document (spec sections 3 and 6; the validation code is not under the
sources).  Fly parameters may be absent; the output format is a free
string. -/
structure RawConfig where
  scanType : ScanType
  nWhite : Nat
  nDark : Nat
  nFrames : Nat
  acquireTime : ℚ
  acquirePeriod : ℚ
  omegaStart : ℚ
  omegaEnd : ℚ
  omegaStep : ℚ
  kx : ℚ
  kz : ℚ
  rotSpeed : Option ℚ
  accl : Option ℚ
  outputType : String
deriving DecidableEq, Repr

/-- Is (omega_end - omega_start)/omega_step a whole number of steps? -/
def stepsIntegral (raw : RawConfig) : Bool :=
  raw.omegaStep != 0 && ((raw.omegaEnd - raw.omegaStart) / raw.omegaStep).den == 1

/-- The output formats the scan-configuration yaml admits
(tiff|tif, hdf|hdf1|hdf5). -/
def isKnownFormat (s : String) : Bool :=
  s == "tiff" || s == "tif" || s == "hdf" || s == "hdf1" || s == "hdf5"

/-- Modelled from the spec: validate(raw) -> ScanConfig | ConfigError
(spec section 4.1; the validation code is not under the sources).
Pure: rejects non-positive durations, acquire_period < acquire_time, a
non-integral step count in Step mode, missing fly parameters in Fly
mode, and unknown output formats; otherwise builds the immutable
ScanConfig, resolving the ROT_STAGE_FAST_SPEED/accl defaults. -/
def validate (raw : RawConfig) : Except ConfigError ScanConfig :=
  if raw.acquireTime ≤ 0 ∨ raw.acquirePeriod ≤ 0 then .error .badDuration
  else if raw.acquirePeriod < raw.acquireTime then .error .periodBelowTime
  else if raw.scanType = .step ∧ stepsIntegral raw = false then .error .nonIntegralSteps
  else if raw.scanType = .fly ∧ (raw.rotSpeed.isNone ∨ raw.accl.isNone) then
    .error .missingFlyParams
  else if isKnownFormat raw.outputType = false then .error .unknownFormat
  else
    .ok { scanType := raw.scanType
        , nWhite := raw.nWhite
        , nDark := raw.nDark
        , nFrames := raw.nFrames
        , acquireTime := raw.acquireTime
        , acquirePeriod := raw.acquirePeriod
        , omegaStart := raw.omegaStart
        , omegaEnd := raw.omegaEnd
        , omegaStep := raw.omegaStep
        , kx := raw.kx
        , kz := raw.kz
        , rotSpeed := raw.rotSpeed.getD 1
        , accl := raw.accl.getD 3 }

/-- Did validation succeed? -/
def validateOk (raw : RawConfig) : Bool :=
  match validate raw with
  | .ok _ => true
  | .error _ => false

/-- The raw tomo template configuration exactly as in the
scan-configuration yaml bundled with docker-compose.yml. -/
def tomoTemplateRaw : RawConfig where
  scanType := .step
  nWhite := 5
  nDark := 5
  nFrames := 5
  acquireTime := 1/2
  acquirePeriod := 51/100
  omegaStart := 0
  omegaEnd := 20
  omegaStep := 1/2
  kx := -1
  kz := 0
  rotSpeed := some 1
  accl := some 3
  outputType := "hdf"

/-- Modelled from the spec and the recorded trace: the sample-out move
applied to the ksamX/ksamZ stage before a white-field collection: the
configured sample_out_position offsets expressed in the sample frame
rotated to the current omega (the trace shows ksamX, ksamZ moves of
(-1.0, 0.0) at omega = 0 and (-cos 10deg, sin 10deg) after the
projection scan ends at omega = 10deg, for kx = -1, kz = 0). -/
noncomputable def sampleOutMove (kx kz ω : ℝ) : ℝ × ℝ :=
  (kx * Real.cos ω + kz * Real.sin ω, kz * Real.cos ω - kx * Real.sin ω)

/-- The lab-frame image of a sample-frame vector when the rotation
stage sits at angle omega. -/
noncomputable def rotateVec (ω : ℝ) (v : ℝ × ℝ) : ℝ × ℝ :=
  (v.1 * Real.cos ω - v.2 * Real.sin ω, v.1 * Real.sin ω + v.2 * Real.cos ω)

/-- C1: the claim that no open_run is ever emitted while a previously
opened run is still unclosed, on every exit path including abort, is
violated by the code: tomo_scan wraps the whole plan in an enclosing run
and collect_white_field then opens a nested run, so the recorded trace
fails the no-nested-open check, and on the actual abort path (the prefix
the RunEngine consumed before raising IllegalMessageSequence) two
open_run messages were emitted against zero close_run messages. -/
theorem c1_open_close_invariant_violated :
    noNestedOpen recordedTrace = false ∧
    countOpenRun recordedTrace = 5 ∧
    countCloseRun recordedTrace = 5 ∧
    countOpenRun abortConsumed = 2 ∧
    countCloseRun abortConsumed = 0 := by
  decide

/-- C2 counterexample: with n_white = 5 (the template configuration and
the image count of each sample-out run), the recorded trace contains two
White-field runs, not exactly one as the claim states: the plan collects
a white field both before and after the projection scan. -/
theorem c2_white_field_counterexample :
    whiteRunCount recordedTrace = 2 ∧
    whiteRunImages recordedTrace = [some 5, some 5] ∧
    (2 : Nat) ≠ 1 := by
  decide

/-- C3 counterexample: in the recorded trace the projection run
configures 51 detector images for omega_start = 0, omega_end = 10,
omega_step = 0.2 (the psofly settings in the same run), while
round((omega_end - omega_start)/omega_step) = 50, so the claimed count
formula fails on the code. -/
theorem c3_projection_count_counterexample :
    projRunImages recordedTrace = some 51 ∧
    round (((10 : ℚ) - 0) / (1/5)) = 50 ∧
    (51 : Nat) ≠ 50 := by
  refine ⟨by decide, ?_, by decide⟩
  norm_num

/-- C4 counterexample: the recorded inner-run order is WhiteField,
Projection, WhiteField, DarkField — the WhiteField run kind occurs
twice (front and back white field), so the claimed order WhiteField,
Projection, DarkField with no repeated run kind does not hold. -/
theorem c4_run_order_counterexample :
    runKindSeq recordedTrace =
      [RunKind.white, RunKind.projection, RunKind.white, RunKind.dark] ∧
    runKindSeq recordedTrace ≠ [RunKind.white, RunKind.projection, RunKind.dark] := by
  decide

theorem openKinds_append (a b : List MEv) :
    openKinds (a ++ b) = openKinds a ++ openKinds b := by
  simp [openKinds]

theorem whiteImgCounts_append (a b : List MEv) :
    whiteImgCounts (a ++ b) = whiteImgCounts a ++ whiteImgCounts b := by
  simp [whiteImgCounts]

theorem openKinds_stepBody (l : List ℚ) (n : Nat) :
    openKinds (l.flatMap (fun ω =>
      [MEv.rotTo ω, MEv.configDet .projection .internal n, MEv.acquire n])) = [] := by
  induction l with
  | nil => rfl
  | cons a t ih =>
      simp only [List.flatMap_cons, openKinds, List.filterMap_append] at ih ⊢
      simpa using ih

theorem whiteImgCounts_stepBody (l : List ℚ) (n : Nat) :
    whiteImgCounts (l.flatMap (fun ω =>
      [MEv.rotTo ω, MEv.configDet .projection .internal n, MEv.acquire n])) = [] := by
  induction l with
  | nil => rfl
  | cons a t ih =>
      simp only [List.flatMap_cons, whiteImgCounts, List.filterMap_append] at ih ⊢
      simpa using ih

theorem openKinds_whiteSeg (cfg : ScanConfig) :
    openKinds (whiteSeg cfg) = if cfg.nWhite = 0 then [] else [RunKind.white] := by
  by_cases h : cfg.nWhite = 0 <;> simp [whiteSeg, openKinds, h]

theorem openKinds_projSeg (cfg : ScanConfig) :
    openKinds (projSeg cfg) = [RunKind.projection] := by
  cases h : cfg.scanType
  case step =>
    have hb := openKinds_stepBody (omegaSeq cfg) cfg.nFrames
    simp only [projSeg, h]
    simp only [openKinds, List.filterMap_cons, List.filterMap_append] at hb ⊢
    simp [hb]
  case fly => simp [projSeg, h, openKinds]

theorem openKinds_darkSeg (cfg : ScanConfig) :
    openKinds (darkSeg cfg) = if cfg.nDark = 0 then [] else [RunKind.dark] := by
  by_cases h : cfg.nDark = 0 <;> simp [darkSeg, openKinds, h]

theorem whiteImgCounts_whiteSeg (cfg : ScanConfig) :
    whiteImgCounts (whiteSeg cfg) = if cfg.nWhite = 0 then [] else [cfg.nWhite] := by
  by_cases h : cfg.nWhite = 0 <;> simp [whiteSeg, whiteImgCounts, h]

theorem whiteImgCounts_projSeg (cfg : ScanConfig) :
    whiteImgCounts (projSeg cfg) = [] := by
  cases h : cfg.scanType
  case step =>
    have hb := whiteImgCounts_stepBody (omegaSeq cfg) cfg.nFrames
    simp only [projSeg, h]
    simp only [whiteImgCounts, List.filterMap_cons, List.filterMap_append] at hb ⊢
    simp [hb]
  case fly => simp [projSeg, h, whiteImgCounts]

theorem whiteImgCounts_darkSeg (cfg : ScanConfig) :
    whiteImgCounts (darkSeg cfg) = [] := by
  by_cases h : cfg.nDark = 0 <;> simp [darkSeg, whiteImgCounts, h]

theorem openKinds_tomoScanModel (cfg : ScanConfig) :
    openKinds (tomoScanModel cfg) =
      [RunKind.outer]
        ++ (if cfg.nWhite = 0 then [] else [RunKind.white])
        ++ [RunKind.projection]
        ++ (if cfg.nWhite = 0 then [] else [RunKind.white])
        ++ (if cfg.nDark = 0 then [] else [RunKind.dark]) := by
  simp only [tomoScanModel, openKinds_append, openKinds_whiteSeg, openKinds_projSeg,
    openKinds_darkSeg]
  simp [openKinds]

theorem whiteImgCounts_tomoScanModel (cfg : ScanConfig) :
    whiteImgCounts (tomoScanModel cfg) =
      (if cfg.nWhite = 0 then [] else [cfg.nWhite])
        ++ (if cfg.nWhite = 0 then [] else [cfg.nWhite]) := by
  simp only [tomoScanModel, whiteImgCounts_append, whiteImgCounts_whiteSeg,
    whiteImgCounts_projSeg, whiteImgCounts_darkSeg]
  simp [whiteImgCounts]

/-- C2 amended: the plan collects a white field both before and after
the projection scan, so for n_white = 0 no white-field run is emitted
at all, and for n_white = 5 exactly two white-field runs are emitted,
each configured to acquire 5 images. -/
theorem c2_white_field_amended (cfg : ScanConfig) :
    (cfg.nWhite = 0 →
      (openKinds (tomoScanModel cfg)).count RunKind.white = 0 ∧
      whiteImgCounts (tomoScanModel cfg) = []) ∧
    (cfg.nWhite = 5 →
      (openKinds (tomoScanModel cfg)).count RunKind.white = 2 ∧
      whiteImgCounts (tomoScanModel cfg) = [5, 5]) := by
  constructor
  · intro h
    simp [openKinds_tomoScanModel, whiteImgCounts_tomoScanModel, h]
    split <;> decide
  · intro h
    have h0 : cfg.nWhite ≠ 0 := by omega
    simp [openKinds_tomoScanModel, whiteImgCounts_tomoScanModel, h, h0]
    split <;> decide

/-- Witness for c2_white_field_amended: instantiated at the template
configuration (n_white = 5) and at the same configuration with
n_white = 0. -/
theorem c2_white_field_amended_witness :
    ((openKinds (tomoScanModel { tomoTemplateCfg with nWhite := 0 })).count RunKind.white = 0 ∧
      whiteImgCounts (tomoScanModel { tomoTemplateCfg with nWhite := 0 }) = []) ∧
    ((openKinds (tomoScanModel tomoTemplateCfg)).count RunKind.white = 2 ∧
      whiteImgCounts (tomoScanModel tomoTemplateCfg) = [5, 5]) :=
  ⟨(c2_white_field_amended { tomoTemplateCfg with nWhite := 0 }).1 (by decide),
   (c2_white_field_amended tomoTemplateCfg).2 (by decide)⟩

/-- C3 amended: the projection image count configured by the code is
boundary inclusive, floor((omega_end - omega_start)/omega_step) + 1:
the template configuration omega 0 to 20 by 0.5 yields 41 projection
acquisitions, and the recorded fly configuration omega 0 to 10 by 0.2
yields 51, exactly the det_cam_num_images value in the recorded
projection run. -/
theorem c3_projection_count_amended :
    nProjections tomoTemplateCfg = 41 ∧
    nProjections recordedCfg = 51 ∧
    projRunImages recordedTrace = some 51 := by
  refine ⟨?_, ?_, by decide⟩ <;>
    (norm_num [nProjections, tomoTemplateCfg, recordedCfg]; decide)

/-- C4 amended: a successful execution opens the runs in exactly the
order WhiteField, Projection, WhiteField, DarkField (front and back
white field), all wrapped in one enclosing run, each opened and closed
once; the WhiteField kind occurs twice. -/
theorem c4_run_order_amended (cfg : ScanConfig)
    (hw : cfg.nWhite ≠ 0) (hd : cfg.nDark ≠ 0) :
    openKinds (tomoScanModel cfg) =
      [RunKind.outer, RunKind.white, RunKind.projection, RunKind.white, RunKind.dark] := by
  simp [openKinds_tomoScanModel, hw, hd]

/-- Witness for c4_run_order_amended at the template configuration. -/
theorem c4_run_order_amended_witness :
    openKinds (tomoScanModel tomoTemplateCfg) =
      [RunKind.outer, RunKind.white, RunKind.projection, RunKind.white, RunKind.dark] :=
  c4_run_order_amended tomoTemplateCfg (by decide) (by decide)

/-- C5: in the recorded trace the projection run closes (2nd close_run,
index 43), the shutter close command follows at index 61, and only then
does the dark-field run open (5th open_run, index 62), tagged
frame_type 3 (the dark tag, index 60); the dark run itself configures
internal trigger and 5 = n_dark images and performs exactly one
acquisition before closing.  In the modelled sequence, for every
configuration with n_dark > 0, the shutter close immediately precedes
the dark run, which acquires exactly n_dark internally triggered
images and is closed. -/
theorem c5_dark_field_transition :
    (nthIdx isCloseMsg 1 recordedTrace = some 43 ∧
     nthIdx isShutterClose 0 recordedTrace = some 61 ∧
     nthIdx isOpenMsg 4 recordedTrace = some 62 ∧
     recordedTrace[60]? = some (TraceMsg.set "det_cam_frame_type" "3") ∧
     ((innerRuns recordedTrace).getLast?).map
        (fun r => (classifyRun r, setValue "det_cam_trigger_mode" r,
                   numImagesOf r, readCount r))
       = some (RunKind.dark, some "Internal", some 5, 1)) ∧
    (∀ cfg : ScanConfig, cfg.nDark ≠ 0 →
      tomoScanModel cfg =
        [MEv.openRun .outer, MEv.shutterOpen]
          ++ whiteSeg cfg ++ projSeg cfg ++ whiteSeg cfg
          ++ [MEv.shutterClose, MEv.openRun .dark,
              MEv.configDet .dark .internal cfg.nDark, MEv.acquire cfg.nDark,
              MEv.closeRun, MEv.closeRun]) := by
  refine ⟨by decide, ?_⟩
  intro cfg hd
  simp [tomoScanModel, darkSeg, hd]

/-- Witness for c5_dark_field_transition at the recorded
configuration. -/
theorem c5_dark_field_transition_witness :
    tomoScanModel recordedCfg =
      [MEv.openRun .outer, MEv.shutterOpen]
        ++ whiteSeg recordedCfg ++ projSeg recordedCfg ++ whiteSeg recordedCfg
        ++ [MEv.shutterClose, MEv.openRun .dark,
            MEv.configDet .dark .internal recordedCfg.nDark,
            MEv.acquire recordedCfg.nDark,
            MEv.closeRun, MEv.closeRun] :=
  c5_dark_field_transition.2 recordedCfg (by decide)

/-- C6: a DeviceFault at the Fly-mode arm_and_wait (armWait tag 1, with
the front white-field acquisition tag 0 succeeding) terminates the
modelled sequence in Failed with the shutter commanded closed and every
moved motor restored to its pre-run position. -/
theorem c6_fly_fault_failed_restored (cfg : ScanConfig) (init : MotorPos)
    (fault : Nat → Bool) (hf : cfg.scanType = .fly)
    (h0 : fault 0 = false) (h1 : fault 1 = true) :
    tomoScanSim cfg init fault = ⟨true, false, init⟩ := by
  obtain ⟨a, b, c, d, e⟩ := init
  by_cases hw : cfg.nWhite = 0 <;>
    simp [tomoScanSim, buildPlan, whiteCmds, projCmds, hf, hw, runPlan, stepCmd,
      restoredPos, h0, h1, MotorPos.put, MotorPos.get]

/-- Witness for c6_fly_fault_failed_restored: the recorded fly
configuration, concrete initial positions, and a fault oracle that
trips exactly the fly acquisition. -/
theorem c6_fly_fault_failed_restored_witness :
    tomoScanSim recordedCfg ⟨1, 2, 3, 4, 5⟩ (fun n => n == 1) =
      ⟨true, false, ⟨1, 2, 3, 4, 5⟩⟩ :=
  c6_fly_fault_failed_restored recordedCfg ⟨1, 2, 3, 4, 5⟩ (fun n => n == 1)
    (by decide) (by decide) (by decide)

theorem stepScanRun_facts (angles : List ℚ) (trip : Nat → Bool) (i : Nat) :
    acqAngles (stepScanRun angles trip i) = angles ∧
    pausesOk (stepScanRun angles trip i) = true := by
  induction angles generalizing i with
  | nil => simp [stepScanRun, acqAngles, pausesOk]
  | cons a t ih =>
      obtain ⟨ih1, ih2⟩ := ih (i + 1)
      by_cases h : trip i <;>
        simp [stepScanRun, h, acqAngles, pausesOk] <;>
        simp [acqAngles] at ih1 <;> simp [ih1, ih2]

/-- C7: in the modelled step-mode projection loop, whatever trips the
Suspender raises at the checkpoints between projections, every pause
happens immediately before a motion command (never mid-motion or
mid-acquisition), and the acquired omega angles are exactly the
planned omega sequence, in order, with none duplicated and none
skipped. -/
theorem c7_suspender_step_resume (cfg : ScanConfig) (trip : Nat → Bool) :
    acqAngles (stepScanRun (omegaSeq cfg) trip 0) = omegaSeq cfg ∧
    pausesOk (stepScanRun (omegaSeq cfg) trip 0) = true :=
  stepScanRun_facts (omegaSeq cfg) trip 0

theorem applyRestore_eq_home (home p : MotorPos) :
    applyRestore home p = home := by
  cases home
  rfl

/-- C8: restoration is idempotent: restoring the saved home positions
twice leaves every motor exactly where one restoration leaves it, and
the second invocation performs zero net motion. -/
theorem c8_restore_idempotent (home p : MotorPos) :
    applyRestore home (applyRestore home p) = applyRestore home p ∧
    netMotion home (applyRestore home p) = 0 := by
  simp [applyRestore_eq_home, netMotion]

/-- C9: validation fails exactly on a non-positive duration,
acquire_period < acquire_time, a non-integral step count in Step mode,
missing fly parameters in Fly mode, or an unknown output format
(validate is a pure function, so it has no side effects and runs
before any hardware operation); on the template tomo configuration it
succeeds and yields the template ScanConfig. -/
theorem c9_validate_characterization :
    (∀ raw : RawConfig,
      validateOk raw = false ↔
        (raw.acquireTime ≤ 0 ∨ raw.acquirePeriod ≤ 0 ∨
         raw.acquirePeriod < raw.acquireTime ∨
         (raw.scanType = .step ∧ stepsIntegral raw = false) ∨
         (raw.scanType = .fly ∧ (raw.rotSpeed.isNone ∨ raw.accl.isNone)) ∨
         isKnownFormat raw.outputType = false)) ∧
    validate tomoTemplateRaw = .ok tomoTemplateCfg := by
  constructor
  · intro raw
    unfold validateOk validate
    split_ifs with h1 h2 h3 h4 h5 <;> (simp_all; try tauto)
  · have h1 : ¬(tomoTemplateRaw.acquireTime ≤ 0 ∨ tomoTemplateRaw.acquirePeriod ≤ 0) := by
      norm_num [tomoTemplateRaw]
    have h2 : ¬(tomoTemplateRaw.acquirePeriod < tomoTemplateRaw.acquireTime) := by
      norm_num [tomoTemplateRaw]
    have hsteps : stepsIntegral tomoTemplateRaw = true := by
      norm_num [stepsIntegral, tomoTemplateRaw, bne_iff_ne, beq_iff_eq]
    have h3 : ¬(tomoTemplateRaw.scanType = ScanType.step ∧
        stepsIntegral tomoTemplateRaw = false) := by
      simp [hsteps]
    have h4 : ¬(tomoTemplateRaw.scanType = ScanType.fly ∧
        (tomoTemplateRaw.rotSpeed.isNone ∨ tomoTemplateRaw.accl.isNone)) := by
      simp [tomoTemplateRaw]
    have h5 : ¬(isKnownFormat tomoTemplateRaw.outputType = false) := by
      simp [isKnownFormat, tomoTemplateRaw]
    unfold validate
    rw [if_neg h1, if_neg h2, if_neg h3, if_neg h4, if_neg h5]
    rfl

/-- C10: the sample-out move applied before a white-field collection
is the configured offsets {kx, kz} expressed in the sample frame at
the current rotation omega; rotating it back to the lab frame gives
(kx, kz) for every omega, so the sample leaves the beam along the same
lab-frame direction regardless of rotation; with kx = -1, kz = 0 the
move is (-1, 0) at omega = 0 and (-cos 10deg, sin 10deg) at
omega = 10deg, as in the recorded trace. -/
theorem c10_sample_out_rotated (kx kz ω : ℝ) :
    rotateVec ω (sampleOutMove kx kz ω) = (kx, kz) ∧
    sampleOutMove (-1) 0 0 = (-1, 0) ∧
    sampleOutMove (-1) 0 (10 * Real.pi / 180) =
      (-Real.cos (10 * Real.pi / 180), Real.sin (10 * Real.pi / 180)) := by
  refine ⟨?_, ?_, ?_⟩
  · simp only [sampleOutMove, rotateVec, Prod.mk.injEq]
    constructor
    · linear_combination kx * Real.sin_sq_add_cos_sq ω
    · linear_combination kz * Real.sin_sq_add_cos_sq ω
  · simp [sampleOutMove]
  · simp only [sampleOutMove, Prod.mk.injEq]
    constructor <;> ring
